import Mathlib

/-!
# django2go — verification of the schema/migration generation pipeline

Shallow embedding of `main.go`: the Go data model (`Field`, `Model`), the
schema generator (`generateSQL`), the down-migration generator
(`generateDownSQL`), the name transform (`toSnake`), the type mapping
(`sqlType`), the config emitter (`generateSQLCConfig`), the artifact
assembly done by `main`, and the embedded Python extractor
(`extract_models` in `pythonScript`).

Strings are Lean `String`s (in this toolchain a wrapper around
`List Char`); Go's byte-level builder operations act on ASCII text
throughout, so character-level and byte-level indexing coincide wherever
the code truncates or appends.
-/

namespace DjangoToGo

/-- Go struct `Field` (main.go): one field of a Django model, as decoded
from the Python parser's JSON.  A JSON `null`/omitted `relation` or
`related_to` decodes to the empty Go string. -/
structure Field where
  name : String
  type : String
  nullable : Bool
  unique : Bool
  relation : String
  relatedTo : String
deriving DecidableEq

/-- Go struct `Model` (main.go): a Django model with its fields, in
declaration order. -/
structure Model where
  name : String
  fields : List Field
deriving DecidableEq

/-- `strings.ReplaceAll(s, " ", "_")` with the one-character pattern `" "`
is a character-wise map. -/
def replaceSpaceChar (c : Char) : Char := if c = ' ' then '_' else c

/-- `strings.ReplaceAll(s, " ", "_")` from `toSnake`. -/
def replaceSpaces (s : String) : String := ⟨s.data.map replaceSpaceChar⟩

/-- `strings.ToLower`, modeled on the ASCII range (Go's Unicode simple
case mapping restricted to ASCII, which is `Char.toLower`). -/
def goToLower (s : String) : String := ⟨s.data.map Char.toLower⟩

/-- Go `toSnake` (main.go): `strings.ToLower(strings.ReplaceAll(s, " ", "_"))`. -/
def toSnake (s : String) : String := goToLower (replaceSpaces s)

/-- Go `sqlType` (main.go): maps Django field types to SQL types.  The
`dialect` parameter is accepted but never inspected. -/
def sqlType (ftype dialect : String) : String :=
  match ftype with
  | "CharField" | "TextField" => "TEXT"
  | "IntegerField" => "INTEGER"
  | "FloatField" => "REAL"
  | "BooleanField" => "BOOLEAN"
  | "DateField" | "DateTimeField" => "TIMESTAMP"
  | _ => "TEXT"

/-- Sequential concatenation of string chunks, as produced by Go's
`strings.Builder` `WriteString` calls. -/
def concatStrings : List String → String
  | [] => ""
  | s :: rest => s ++ concatStrings rest

/-- `sb.Truncate(sb.Len() - 2)`: drop the final two bytes of the builder.
At every call site the builder ends with the ASCII suffix `",\n"`, so two
bytes are exactly the last two characters. -/
def truncate2 (s : String) : String := ⟨s.data.dropLast.dropLast⟩

/-- One plain column line of `generateSQL`'s per-field loop:
`"    <name> <type>[ NOT NULL][ UNIQUE],\n"`. -/
def columnDef (f : Field) (dialect : String) : String :=
  let col := "    " ++ toSnake f.name ++ " " ++ sqlType f.type dialect
  let col := if !f.nullable then col ++ " NOT NULL" else col
  let col := if f.unique then col ++ " UNIQUE" else col
  col ++ ",\n"

/-- One `FOREIGN KEY` constraint line of `generateSQL`'s second per-field
loop (emitted when `relation` is `"foreignkey"` or `"one2one"`). -/
def fkClause (f : Field) : String :=
  "    FOREIGN KEY (" ++ toSnake f.name ++ "_id) REFERENCES " ++
    toSnake f.relatedTo ++ "(id),\n"

/-- The `CREATE TABLE` statement `generateSQL` emits for one model: the
header and `id` column, every field's plain column, every
foreign-key/one-to-one constraint line, then `sb.Truncate(sb.Len()-2)`
removing the trailing `",\n"`, then `"\n);\n\n"`. -/
def modelTable (m : Model) (dialect : String) : String :=
  truncate2 ("CREATE TABLE " ++ toSnake m.name ++ " (\n    id SERIAL PRIMARY KEY,\n"
      ++ concatStrings (m.fields.map (fun f => columnDef f dialect))
      ++ concatStrings (m.fields.map (fun f =>
          if f.relation == "foreignkey" || f.relation == "one2one" then fkClause f else "")))
    ++ "\n);\n\n"

/-- The join-table `CREATE TABLE` statement `generateSQL` emits for one
many-to-many field of a model. -/
def joinTableSQL (m : Model) (f : Field) : String :=
  "CREATE TABLE " ++ (toSnake m.name ++ "_" ++ toSnake f.name) ++ " (\n    "
    ++ toSnake m.name ++ "_id INTEGER REFERENCES " ++ toSnake m.name ++ "(id),\n    "
    ++ toSnake f.relatedTo ++ "_id INTEGER REFERENCES " ++ toSnake f.relatedTo ++ "(id)\n);\n\n"

/-- `generateSQL`'s trailing per-model loop: a join table for every field
with `relation == "many2many"`. -/
def modelJoinTables (m : Model) : String :=
  concatStrings (m.fields.map (fun f =>
    if f.relation == "many2many" then joinTableSQL m f else ""))

/-- Go `generateSQL` (main.go): per model in order, the model's own
`CREATE TABLE` statement followed by its many-to-many join tables. -/
def generateSQL (models : List Model) (dialect : String) : String :=
  concatStrings (models.map (fun m => modelTable m dialect ++ modelJoinTables m))

/-- The `DROP TABLE` statement `generateDownSQL` emits for a many-to-many
field's join table. -/
def dropJoinStmt (m : Model) (f : Field) : String :=
  "DROP TABLE IF EXISTS " ++ toSnake m.name ++ "_" ++ toSnake f.name ++ ";\n"

/-- The `DROP TABLE` statement `generateDownSQL` emits for a model's own
table. -/
def dropModelStmt (m : Model) : String :=
  "DROP TABLE IF EXISTS " ++ toSnake m.name ++ ";\n"

/-- The statements of Go `generateDownSQL` (main.go), in emission order:
per model, first the join-table drops of its many-to-many fields, then
the model's own drop. -/
def downStatements (models : List Model) : List String :=
  models.flatMap (fun m =>
    ((m.fields.filter (fun f => f.relation == "many2many")).map (fun f => dropJoinStmt m f))
      ++ [dropModelStmt m])

/-- Go `generateDownSQL` (main.go).  The `dialect` parameter is accepted
but unused, as in the source. -/
def generateDownSQL (models : List Model) (dialect : String) : String :=
  concatStrings (downStatements models)

/-- Go `generateSQLCConfig` (main.go): the sqlc.yaml text with the chosen
dialect interpolated as the engine. -/
def generateSQLCConfig (dialect : String) : String :=
  "version: \"2\"\nsql:\n  - engine: " ++ dialect ++
    "\n    queries: \"./query.sql\"\n    schema: \"./schema.sql\"\n    gen:\n      go:\n        package: \"db\"\n        out: \"./db\"\n"

/-- The five artifacts `main` writes after a successful parse, plus the
filenames of the migration pair.  `main` calls `timestamp()` once for the
up filename and again, independently, for the down filename; the two
clock readings enter as `t1` and `t2`. -/
structure Artifacts where
  schema : String
  upName : String
  up : String
  downName : String
  down : String
  query : String
  config : String
deriving DecidableEq

/-- The artifact-generation step of Go `main` (main.go, after a
successful `runPythonParser`): contents and migration filenames. -/
def generateArtifacts (models : List Model) (queries : List String)
    (dialect t1 t2 : String) : Artifacts :=
  { schema := generateSQL models dialect
    upName := t1 ++ "_create_tables.up.sql"
    up := generateSQL models dialect
    downName := t2 ++ "_create_tables.down.sql"
    down := generateDownSQL models dialect
    query := String.intercalate "\n\n" queries
    config := generateSQLCConfig dialect }

/-! ## The embedded Python extractor (`pythonScript` in main.go)

The script walks the input directory, parses every `.py` file with
`ast.parse` and extracts Model classes.  We embed the shapes of the
Python AST nodes the script inspects; a file whose text `ast.parse`
rejects is represented with `ptree = none` (an uncaught `SyntaxError`).
Failure paths the script can take (`SyntaxError`, `AttributeError`,
`IndexError`) are `Except.error`, since an uncaught Python exception
aborts the whole script. -/

/-- A Python literal as the script's `getattr(k.value, 's',
getattr(k.value, 'value', None))` sees it: a `bool` constant, or
anything else (which serializes to JSON `null` and decodes to Go
`false`). -/
inductive PyLit where
  | pybool (b : Bool)
  | nonbool
deriving DecidableEq

/-- The function position of a call: `models.CharField(...)` is an
`ast.Attribute` (the script reads `.attr`); anything else yields
`ftype = ""`. -/
inductive PyFunc where
  | fattr (a : String)
  | fother
deriving DecidableEq

/-- A positional argument: an `ast.Name` (the script reads `.id`) or
anything else (yielding `to = ""`). -/
inductive PyArg where
  | argname (id : String)
  | argother
deriving DecidableEq

/-- An assignment target: an `ast.Name` carries `.id`; a tuple,
subscript or attribute target has no `.id` and makes
`stmt.targets[0].id` raise `AttributeError`. -/
inductive PyTarget where
  | tname (id : String)
  | tother
deriving DecidableEq

/-- A class-body statement, split by the script's
`isinstance(stmt, ast.Assign) and isinstance(stmt.value, ast.Call)`
test: an assignment whose value is a call (with the parts the script
reads), an assignment whose value is not a call, or any other
statement. -/
inductive PyStmt where
  | assign (targets : List PyTarget) (func : PyFunc) (args : List PyArg)
      (keywords : List (String × PyLit))
  | assignNonCall
  | otherStmt
deriving DecidableEq

/-- A base-class expression: an `ast.Name` or anything else (which the
list comprehension maps to `""`). -/
inductive PyBase where
  | bname (id : String)
  | bother
deriving DecidableEq

/-- A top-level class definition. -/
structure PyClassDef where
  cname : String
  bases : List PyBase
  body : List PyStmt
deriving DecidableEq

/-- A top-level module statement: a class definition or anything else. -/
inductive PyTop where
  | classdef (c : PyClassDef)
  | topother
deriving DecidableEq

/-- One `.py` file as the walk sees it: its name and the outcome of
`ast.parse` on its text (`none` = `SyntaxError`). -/
structure SourceFile where
  fname : String
  ptree : Option (List PyTop)
deriving DecidableEq

/-- `[b.id if isinstance(b, ast.Name) else "" for b in node.bases]`. -/
def baseNames (bs : List PyBase) : List String :=
  bs.map (fun b => match b with | .bname i => i | .bother => "")

/-- Python `dict.get` over the kwargs comprehension: later duplicate
keys overwrite earlier ones, so look up the last binding. -/
def getKw (kwargs : List (String × PyLit)) (key : String) : Option PyLit :=
  (kwargs.reverse.find? (fun p => p.1 == key)).map (fun p => p.2)

/-- `kwargs.get('null', False)` as it reaches the Go `bool` field: a
Python `bool` constant passes through; a missing key, a non-`bool`
constant or a non-constant value reaches Go as JSON `null`/`false`. -/
def litToBool : Option PyLit → Bool
  | some (.pybool b) => b
  | _ => false

/-- `ftype.lower().replace("field", "")` — the script's derivation of the
relation kind string. -/
def pyRelationKind (ftype : String) : String :=
  (goToLower ftype).replace "field" ""

/-- The three relation constructor names the script recognizes. -/
def relNames : List String := ["ForeignKey", "OneToOneField", "ManyToManyField"]

/-- The body of the script's per-statement branch: `some field` when the
statement contributes a field, `none` when it is skipped, `Except.error`
when the script raises (`AttributeError` on a call-assignment whose
first target is not a plain name; `IndexError` on a relation
constructor called with no positional argument). -/
def extractField (stmt : PyStmt) : Except String (Option Field) :=
  match stmt with
  | .assign targets func args kwargs =>
    match targets.head? with
    | some (.tname fnm) =>
      let ftype := match func with | .fattr a => a | .fother => ""
      let nullable := litToBool (getKw kwargs "null")
      let uniq := litToBool (getKw kwargs "unique")
      if ftype ∈ relNames then
        match args.head? with
        | none => .error "IndexError: list index out of range"
        | some a =>
          let target := match a with | .argname i => i | .argother => ""
          .ok (some { name := fnm, type := ftype, nullable := nullable, unique := uniq,
                      relation := pyRelationKind ftype, relatedTo := target })
      else
        .ok (some { name := fnm, type := ftype, nullable := nullable, unique := uniq,
                    relation := "", relatedTo := "" })
    | _ => .error "AttributeError: object has no attribute id"
  | .assignNonCall => .ok none
  | .otherStmt => .ok none

/-- The script's loop over a Model class body, appending fields in
order; an exception aborts everything. -/
def extractFields : List PyStmt → Except String (List Field)
  | [] => .ok []
  | s :: rest => do
    let f? ← extractField s
    let fs ← extractFields rest
    pure (match f? with | some f => f :: fs | none => fs)

/-- The script's loop over a module's top-level statements: every class
whose base names include `"Model"` becomes a Model. -/
def extractFileModels : List PyTop → Except String (List Model)
  | [] => .ok []
  | .topother :: rest => extractFileModels rest
  | .classdef c :: rest =>
    if "Model" ∈ baseNames c.bases then do
      let fs ← extractFields c.body
      let ms ← extractFileModels rest
      pure ({ name := c.cname, fields := fs } :: ms)
    else
      extractFileModels rest

/-- The script's walk over all files: `ast.parse` raising `SyntaxError`
on any file (or any later exception) propagates out of `extract_models`
and aborts the whole script. -/
def extractModels : List SourceFile → Except String (List Model)
  | [] => .ok []
  | f :: rest =>
    match f.ptree with
    | none => .error ("SyntaxError: invalid syntax in " ++ f.fname)
    | some tops => do
      let ms ← extractFileModels tops
      let more ← extractModels rest
      pure (ms ++ more)

/-- Go `main` after flag parsing: if `runPythonParser` fails (the Python
process exited nonzero, e.g. on an uncaught `SyntaxError`), `main`
prints the error and exits before writing anything (`none`); otherwise
it writes the artifacts. -/
def runPipeline (files : List SourceFile) (queries : List String)
    (dialect t1 t2 : String) : Option Artifacts :=
  match extractModels files with
  | .error _ => none
  | .ok models => some (generateArtifacts models queries dialect t1 t2)

/-! ## Helper definitions for stating claims about the generated text -/

/-- Split a character list at newline characters (accumulator holds the
current line reversed). -/
def linesAux : List Char → List Char → List String
  | acc, [] => [⟨acc.reverse⟩]
  | acc, c :: rest =>
    if c = '\n' then ⟨acc.reverse⟩ :: linesAux [] rest else linesAux (c :: acc) rest

/-- The lines of a generated text, split at newlines. -/
def strLines (s : String) : List String := linesAux [] s.data

/-- Whether `l` begins with `pre` (character-wise). -/
def beginsWith (pre l : String) : Bool := l.data.take pre.data.length == pre.data

/-- The Go test for the statement shape the extractor reads fields from:
`isinstance(stmt, ast.Assign) and isinstance(stmt.value, ast.Call)`. -/
def isAssignCall : PyStmt → Bool
  | .assign .. => true
  | _ => false

/-! ## Concrete inputs used by witnesses and counterexamples -/

/-- The Model of the spec's `Book` scenario, as the Go `generateSQL`
receives it: `title` text-like not nullable, `author` a foreign key to
`Author`, `tags` many-to-many to `Tag` (the relation-kind markers
`generateSQL` tests for are `"foreignkey"` and `"many2many"`). -/
def bookModel : Model :=
  { name := "Book"
    fields :=
      [ { name := "title", type := "CharField", nullable := false, unique := false,
          relation := "", relatedTo := "" }
      , { name := "author", type := "ForeignKey", nullable := false, unique := false,
          relation := "foreignkey", relatedTo := "Author" }
      , { name := "tags", type := "ManyToManyField", nullable := false, unique := false,
          relation := "many2many", relatedTo := "Tag" } ] }

/-- A many-to-many field for the drop-ordering witness. -/
def blogTagsField : Field :=
  { name := "tags", type := "ManyToManyField", nullable := false,
    unique := false, relation := "many2many", relatedTo := "Tag" }

/-- A model owning one many-to-many field. -/
def blogModel : Model := { name := "Blog", fields := [blogTagsField] }

/-- A self-referential many-to-many field (`Person.friends → Person`). -/
def personFriendsField : Field :=
  { name := "friends", type := "ManyToManyField", nullable := false,
    unique := false, relation := "many2many", relatedTo := "Person" }

/-- A model with a self-referential many-to-many field. -/
def personModel : Model := { name := "Person", fields := [personFriendsField] }

/-- A parsable module defining one Model class `Author`. -/
def okTopsC2 : List PyTop :=
  [ .classdef { cname := "Author"
                bases := [.bname "Model"]
                body := [ .assign [.tname "name"] (.fattr "CharField") []
                            [("max_length", .nonbool)] ] } ]

/-- A file whose text parses. -/
def okFileC2 : SourceFile := { fname := "models.py", ptree := some okTopsC2 }

/-- A file whose text `ast.parse` rejects. -/
def badFileC2 : SourceFile := { fname := "broken.py", ptree := none }

/-- A class-body statement with a call right-hand side but a tuple
target: `a, b = models.CharField()`. -/
def tupleAssignStmt : PyStmt := .assign [.tother] (.fattr "CharField") [] []

/-- A relation constructor called with no positional argument:
`author = models.ForeignKey()`. -/
def noArgFKStmt : PyStmt := .assign [.tname "author"] (.fattr "ForeignKey") [] []

/-! ## Helper lemmas -/

theorem concatStrings_append (a b : List String) :
    concatStrings (a ++ b) = concatStrings a ++ concatStrings b := by
  induction a with
  | nil => simp [concatStrings]
  | cons s rest ih => simp [concatStrings, ih, String.append_assoc]

theorem truncate2_append_comma_nl (s : String) : truncate2 (s ++ ",\n") = s := by
  have h : (s ++ ",\n").data = (s.data ++ [',']) ++ ['\n'] := by
    rw [String.data_append]; simp
  rw [truncate2, h, List.dropLast_concat, List.dropLast_concat]

theorem toNat_ofNat_valid (n : Nat) (h : n.isValidChar) : (Char.ofNat n).toNat = n := by
  simp [Char.ofNat, h]; rfl

theorem toLower_of_upper (c : Char) (h : c.toNat ≥ 65 ∧ c.toNat ≤ 90) :
    Char.toLower c = Char.ofNat (c.toNat + 32) := by
  show (if c.toNat ≥ 65 ∧ c.toNat ≤ 90 then Char.ofNat (c.toNat + 32) else c)
      = Char.ofNat (c.toNat + 32)
  rw [if_pos h]

theorem toLower_of_not_upper (c : Char) (h : ¬(c.toNat ≥ 65 ∧ c.toNat ≤ 90)) :
    Char.toLower c = c := by
  show (if c.toNat ≥ 65 ∧ c.toNat ≤ 90 then Char.ofNat (c.toNat + 32) else c) = c
  rw [if_neg h]

/-- The character-level composite applied by `toSnake` (space-to-underscore
then ASCII lower-casing) is idempotent. -/
theorem snakeChar_idem (c : Char) :
    Char.toLower (replaceSpaceChar (Char.toLower (replaceSpaceChar c)))
      = Char.toLower (replaceSpaceChar c) := by
  by_cases hsp : c = ' '
  · subst hsp; decide
  · simp only [replaceSpaceChar, if_neg hsp]
    by_cases hup : c.toNat ≥ 65 ∧ c.toNat ≤ 90
    · have hlow : (Char.toLower c).toNat = c.toNat + 32 := by
        rw [toLower_of_upper c hup]
        exact toNat_ofNat_valid _ (Or.inl (by omega))
      have hne : ¬(Char.toLower c = ' ') := by
        intro he
        rw [he] at hlow
        have : (' ').toNat = 32 := by decide
        omega
      simp only [if_neg hne]
      exact toLower_of_not_upper _ (by omega)
    · rw [toLower_of_not_upper c hup]
      simp only [if_neg hsp]
      exact toLower_of_not_upper c hup

/-! ## Claims -/

set_option maxRecDepth 8192

/-- C1 (counterexample): for the `Book` Model of the spec's scenario, the
generated `book` table does not have columns exactly `id`, `title`,
`author_id`: the output declares an extra plain column
`tags TEXT NOT NULL` (and also `author TEXT NOT NULL`), and no line of
the output declares a column named `author_id` — `author_id` occurs only
inside the dangling `FOREIGN KEY` clause. -/
theorem book_scenario_counterexample :
    ((strLines (generateSQL [bookModel] "postgres")).contains "    tags TEXT NOT NULL," = true)
    ∧ (strLines (generateSQL [bookModel] "postgres")).filter
        (fun l => beginsWith "    author_id" l) = [] := by
  constructor
  · decide
  · decide

/-- C1 (amended): the `Book` Model yields a `book` table with columns
`id`, `title TEXT NOT NULL`, `author TEXT NOT NULL` and
`tags TEXT NOT NULL` (relation fields get plain columns under their own
names, typed by the unrecognized-type fallback), plus a
`FOREIGN KEY (author_id) REFERENCES author(id)` clause naming a column
that is never declared, and a separate `book_tags` join table with two
referencing integer columns. -/
theorem book_scenario_actual_output :
    generateSQL [bookModel] "postgres" =
      "CREATE TABLE book (\n    id SERIAL PRIMARY KEY,\n    title TEXT NOT NULL,\n    author TEXT NOT NULL,\n    tags TEXT NOT NULL,\n    FOREIGN KEY (author_id) REFERENCES author(id)\n);\n\nCREATE TABLE book_tags (\n    book_id INTEGER REFERENCES book(id),\n    tag_id INTEGER REFERENCES tag(id)\n);\n\n" := by
  decide

/-- C2 (counterexample): the module of `okFileC2` extracts to a Model on
its own, but running the extractor on the pair `[okFileC2, badFileC2]`
aborts with the `SyntaxError` of the bad file, and `main` then exits
without emitting any artifact — the parsable file is not extracted. -/
theorem parse_error_counterexample :
    extractFileModels okTopsC2 =
      .ok [{ name := "Author"
             fields := [{ name := "name", type := "CharField", nullable := false,
                          unique := false, relation := "", relatedTo := "" }] }]
    ∧ extractModels [okFileC2, badFileC2] = .error "SyntaxError: invalid syntax in broken.py"
    ∧ runPipeline [okFileC2, badFileC2] [] "postgres" "t1" "t2" = none :=
  ⟨rfl, rfl, rfl⟩

/-- C2 (amended): a file whose text cannot be parsed raises an uncaught
`SyntaxError` that aborts the entire extraction: whenever any input file
fails to parse, the run produces no artifacts at all, for any file. -/
theorem parse_failure_aborts_run (files : List SourceFile) (queries : List String)
    (dialect t1 t2 : String) (h : ∃ f ∈ files, f.ptree = none) :
    runPipeline files queries dialect t1 t2 = none := by
  suffices h' : ∃ e, extractModels files = .error e by
    obtain ⟨e, he⟩ := h'
    rw [runPipeline, he]
  induction files with
  | nil =>
    obtain ⟨f, hf, _⟩ := h
    cases hf
  | cons f rest ih =>
    cases hp : f.ptree with
    | none => exact ⟨_, by rw [extractModels, hp]⟩
    | some tops =>
      obtain ⟨g, hg, hgnone⟩ := h
      rcases List.mem_cons.mp hg with hgf | hgr
      · rw [hgf, hp] at hgnone; cases hgnone
      · obtain ⟨e, he⟩ := ih ⟨g, hgr, hgnone⟩
        cases hfm : extractFileModels tops with
        | error e' => exact ⟨e', by rw [extractModels, hp]; simp only [hfm]; rfl⟩
        | ok ms => exact ⟨e, by rw [extractModels, hp]; simp only [hfm, he]; rfl⟩

/-- Witness for C2's amended theorem at a concrete file pair. -/
theorem parse_failure_aborts_run_witness :
    runPipeline [okFileC2, badFileC2] [] "postgres" "20250101000000" "20250101000000" = none :=
  parse_failure_aborts_run [okFileC2, badFileC2] [] "postgres" "20250101000000"
    "20250101000000" ⟨badFileC2, by decide, rfl⟩

/-- C3 (counterexample): the claim's own example statements — a
tuple-target assignment with a call right-hand side, and a relation
constructor called with no positional argument — are not silently
skipped: each raises an uncaught exception that aborts extraction. -/
theorem malformed_stmt_counterexample :
    extractFields [tupleAssignStmt] = .error "AttributeError: object has no attribute id"
    ∧ extractFields [noArgFKStmt] = .error "IndexError: list index out of range" :=
  ⟨rfl, rfl⟩

/-- C3 (amended): a class-body statement that is not an assignment whose
right-hand side is a call expression is silently skipped (no error, no
field); but a matched assignment-with-call whose first target is not a
plain name raises `AttributeError`, and a relation constructor called
with no positional argument raises `IndexError`, aborting extraction. -/
theorem non_call_assign_skipped (s : PyStmt) (rest : List PyStmt)
    (h : isAssignCall s = false) :
    extractFields (s :: rest) = extractFields rest := by
  cases s with
  | assign targets func args kwargs => simp [isAssignCall] at h
  | assignNonCall =>
    rw [extractFields]
    cases hrest : extractFields rest <;> simp only [extractField, hrest] <;> rfl
  | otherStmt =>
    rw [extractFields]
    cases hrest : extractFields rest <;> simp only [extractField, hrest] <;> rfl

/-- Witness for C3's amended theorem at a concrete non-matching
statement. -/
theorem non_call_assign_skipped_witness :
    extractFields [PyStmt.otherStmt] = extractFields [] :=
  non_call_assign_skipped PyStmt.otherStmt [] rfl

/-- C4: `main` derives the up and down migration filenames from two
independent `timestamp()` readings; when the two clock readings differ
(a call spanning a second boundary), the up and down artifacts carry
different timestamp tokens, so they do not share one generation
timestamp token. -/
theorem migration_timestamps_desync :
    (generateArtifacts [] [] "postgres" "20250101000000" "20250101000001").upName
        = "20250101000000_create_tables.up.sql"
      ∧ (generateArtifacts [] [] "postgres" "20250101000000" "20250101000001").downName
        = "20250101000001_create_tables.down.sql"
      ∧ ("20250101000000" : String) ≠ "20250101000001" :=
  ⟨rfl, rfl, by decide⟩

/-- C5: for every Model with zero fields, `generateSQL` emits a closed
`CREATE TABLE` statement containing only the `id SERIAL PRIMARY KEY`
column, with the trailing `",\n"` separator trimmed. -/
theorem empty_model_closed_create (m : Model) (dialect : String) (h : m.fields = []) :
    generateSQL [m] dialect =
      "CREATE TABLE " ++ toSnake m.name ++ " (\n    id SERIAL PRIMARY KEY\n);\n\n" := by
  have hlit : (" (\n    id SERIAL PRIMARY KEY,\n" : String)
      = " (\n    id SERIAL PRIMARY KEY" ++ ",\n" := rfl
  have hlit2 : (" (\n    id SERIAL PRIMARY KEY" ++ "\n);\n\n" : String)
      = " (\n    id SERIAL PRIMARY KEY\n);\n\n" := rfl
  simp only [generateSQL, modelTable, modelJoinTables, h, List.map_nil, concatStrings,
    String.append_empty]
  rw [hlit, ← String.append_assoc, truncate2_append_comma_nl, String.append_assoc, hlit2]

/-- Witness for C5 at a concrete zero-field Model. -/
theorem empty_model_closed_create_witness :
    generateSQL [{ name := "Empty Model", fields := [] }] "postgres"
      = "CREATE TABLE empty_model (\n    id SERIAL PRIMARY KEY\n);\n\n" := by
  rw [empty_model_closed_create { name := "Empty Model", fields := [] } "postgres" rfl]
  decide

/-- C6: for every Model list and every many-to-many field of a Model in
it, the down-migration statement list contains the join table's DROP
strictly before the owning Model's own DROP (the two statements occur in
this order as a sublist). -/
theorem join_drop_before_owner_drop (models : List Model) (m : Model) (f : Field)
    (hm : m ∈ models) (hf : f ∈ m.fields) (hrel : f.relation = "many2many") :
    [dropJoinStmt m f, dropModelStmt m].Sublist (downStatements models) := by
  obtain ⟨l1, l2, rfl⟩ := List.append_of_mem hm
  rw [downStatements, List.flatMap_append, List.flatMap_cons]
  apply List.sublist_append_of_sublist_right
  have hjf : dropJoinStmt m f ∈
      (m.fields.filter (fun f => f.relation == "many2many")).map (fun f => dropJoinStmt m f) := by
    apply List.mem_map_of_mem
    rw [List.mem_filter]
    exact ⟨hf, by rw [hrel]; rfl⟩
  obtain ⟨u, v, huv⟩ := List.append_of_mem hjf
  rw [huv]
  apply List.Sublist.trans ?_ (List.sublist_append_left _ _)
  rw [List.append_assoc, List.cons_append]
  apply List.sublist_append_of_sublist_right
  exact List.Sublist.cons₂ _ (List.sublist_append_right v [dropModelStmt m])

/-- Witness for C6 at a concrete Model list. -/
theorem join_drop_before_owner_drop_witness :
    [dropJoinStmt blogModel blogTagsField, dropModelStmt blogModel].Sublist
      (downStatements [blogModel]) :=
  join_drop_before_owner_drop [blogModel] blogModel blogTagsField
    (by decide) (by decide) (by decide)

/-- C7: for every Model list, query list, dialect and pair of clock
readings, the up-migration artifact's content is byte-for-byte the
schema generator's output for the same Model list and dialect. -/
theorem up_artifact_eq_schema (models : List Model) (queries : List String)
    (dialect t1 t2 : String) :
    (generateArtifacts models queries dialect t1 t2).up = generateSQL models dialect := rfl

/-- C8: the two supported dialect values produce identical DDL: the type
mapping and the whole generated schema text are dialect-invariant. -/
theorem dialect_invariant_ddl :
    (∀ ftype, sqlType ftype "postgres" = sqlType ftype "mysql")
    ∧ ∀ models, generateSQL models "postgres" = generateSQL models "mysql" :=
  ⟨fun _ => rfl, fun _ => rfl⟩

/-- C9: the snake-case transform is idempotent:
`toSnake (toSnake x) = toSnake x` for every string `x`. -/
theorem toSnake_idempotent (x : String) : toSnake (toSnake x) = toSnake x := by
  apply String.ext
  simp only [toSnake, goToLower, replaceSpaces, List.map_map]
  apply List.map_congr_left
  intro c _
  simp only [Function.comp]
  exact snakeChar_idem c

/-- C10: for every Model with a many-to-many field whose related model
name coincides with the owning Model's name after the snake-case
transform, the emitted join-table `CREATE TABLE` statement (which occurs
in the Model's join-table output) declares its two columns with the
identical name `<model>_id`. -/
theorem self_m2m_duplicate_column (m : Model) (f : Field)
    (hmem : f ∈ m.fields) (hrel : f.relation = "many2many")
    (hself : toSnake f.relatedTo = toSnake m.name) :
    ∃ pre post, modelJoinTables m = pre ++ joinTableSQL m f ++ post ∧
      joinTableSQL m f =
        "CREATE TABLE " ++ (toSnake m.name ++ "_" ++ toSnake f.name) ++ " (\n    "
          ++ toSnake m.name ++ "_id INTEGER REFERENCES " ++ toSnake m.name ++ "(id),\n    "
          ++ toSnake m.name ++ "_id INTEGER REFERENCES " ++ toSnake m.name ++ "(id)\n);\n\n" := by
  obtain ⟨l1, l2, hsplit⟩ := List.append_of_mem hmem
  refine ⟨concatStrings (l1.map (fun g =>
      if g.relation == "many2many" then joinTableSQL m g else "")),
    concatStrings (l2.map (fun g =>
      if g.relation == "many2many" then joinTableSQL m g else "")), ?_, ?_⟩
  · rw [modelJoinTables, hsplit, List.map_append, List.map_cons, concatStrings_append]
    rw [hrel]
    simp only [concatStrings, beq_self_eq_true, if_pos]
    rw [String.append_assoc]
  · rw [joinTableSQL, hself]

/-- Witness for C10 at the self-referential `Person.friends` Model. -/
theorem self_m2m_duplicate_column_witness :
    ∃ pre post,
      modelJoinTables personModel = pre ++ joinTableSQL personModel personFriendsField ++ post ∧
      joinTableSQL personModel personFriendsField =
        "CREATE TABLE " ++ (toSnake personModel.name ++ "_" ++ toSnake personFriendsField.name)
          ++ " (\n    " ++ toSnake personModel.name ++ "_id INTEGER REFERENCES "
          ++ toSnake personModel.name ++ "(id),\n    " ++ toSnake personModel.name
          ++ "_id INTEGER REFERENCES " ++ toSnake personModel.name ++ "(id)\n);\n\n" :=
  self_m2m_duplicate_column personModel personFriendsField (by decide) (by decide) (by decide)

end DjangoToGo
